import Mathlib

/-!
# Verification of `src/experimental/2d_physics/scene_drone.cpp`

A shallow embedding of the drone demo scene and of the fragment of the
underlying Box2D-style physics engine that the scene exercises.  Floating
point numbers are idealised as exact rationals.  The engine fragment is
modelled after stock Box2D 2.3 semantics (the repository vendors a fork of
it): body/fixture creation with mass recomputation, force/torque
accumulation, the semi-implicit Euler velocity update with damping, and the
automatic clearing of force accumulators after each step.  Collision
resolution, sleeping, and the max-translation clamp are not modelled: no
claim below concerns contacts, sleep, or extreme velocities.  The cosine and
sine used by `b2Rot::Set` when the integrator re-normalises a body's
rotation have no exact rational form, so `World.step` receives them as a
function parameter `trig`; no theorem below depends on its values.
-/

namespace DroneScene

/-- 2D vector, modelling `b2Vec2`. -/
structure Vec2 where
  x : ℚ
  y : ℚ
deriving DecidableEq, Repr

instance : Add Vec2 :=
  ⟨fun a b => ⟨a.x + b.x, a.y + b.y⟩⟩

instance : Zero Vec2 :=
  ⟨⟨0, 0⟩⟩

/-- Scalar multiplication on vectors. -/
def Vec2.smul (c : ℚ) (v : Vec2) : Vec2 :=
  ⟨c * v.x, c * v.y⟩

/-- Rotation, modelling `b2Rot` (stored cosine and sine). -/
structure Rot where
  c : ℚ
  s : ℚ
deriving DecidableEq, Repr

/-- The identity rotation, `b2Rot::SetIdentity` / angle 0. -/
def Rot.identity : Rot :=
  ⟨1, 0⟩

/-- `b2Mul(q, v)`: rotate a vector by a rotation. -/
def Rot.mulVec (q : Rot) (v : Vec2) : Vec2 :=
  ⟨q.c * v.x - q.s * v.y, q.s * v.x + q.c * v.y⟩

/-- RGB color, modelling `b2Color`. -/
structure Color where
  r : ℚ
  g : ℚ
  b : ℚ
deriving DecidableEq, Repr

/-- Render material on a fixture, modelling the fork's `b2Material`
(the fields this file sets). -/
structure Material where
  color : Color
  shininess : ℚ
  emit_intensity : ℚ
deriving DecidableEq, Repr

/-- Default material: fields the source leaves unset stay zero. -/
def Material.default : Material :=
  ⟨⟨0, 0, 0⟩, 0, 0⟩

/-- Collision shapes used by this scene: `b2EdgeShape`,
`b2CircleShape` (center at the body origin, as in the source, which never
sets `m_p`), and `b2PolygonShape::SetAsBox sx sy` (an `sx`-by-`sy`
half-extents rectangle centred at the origin). -/
inductive Shape where
  | edge (v1 v2 : Vec2)
  | circle (radius : ℚ)
  | box (hx hy : ℚ)
deriving DecidableEq, Repr

/-- `b2_pi` as defined by the engine: the literal `3.14159265359f`. -/
def b2_pi : ℚ :=
  3.14159265359

/-- `b2Shape::ComputeMass` for the shapes above, about the body origin
(all shapes in this file are centred there): returns (mass, rotational
inertia).  Circle: `m = ρ·π·r²`, `I = m·r²/2`.  Box of half-extents
`(hx, hy)`: `m = ρ·4·hx·hy`, `I = m·(hx² + hy²)/3`.  Edges have no mass. -/
def Shape.computeMass (shape : Shape) (density : ℚ) : ℚ × ℚ :=
  match shape with
  | .edge _ _ => (0, 0)
  | .circle r =>
      let m := density * b2_pi * r ^ 2
      (m, m * (r ^ 2 / 2))
  | .box hx hy =>
      let m := density * (4 * hx * hy)
      (m, m * ((hx ^ 2 + hy ^ 2) / 3))

/-- A fixture definition / fixture, modelling `b2FixtureDef` restricted to
the fields the source sets.  Unset fields keep the engine defaults
(`density = 0`, `friction = 0.2`, `restitution = 0`). -/
structure Fixture where
  shape : Shape
  friction : ℚ
  restitution : ℚ
  density : ℚ
  material : Material
deriving DecidableEq, Repr

/-- Body type (`b2BodyType`); this file uses only static and dynamic. -/
inductive BodyType where
  | staticBody
  | dynamicBody
deriving DecidableEq, Repr

/-- `b2BodyDef`, restricted to the fields the source sets.  The source
never sets `angle`, so bodies are created with the identity rotation. -/
structure BodyDef where
  type : BodyType
  position : Vec2
  linearDamping : ℚ
  angularDamping : ℚ
deriving DecidableEq, Repr

/-- Default body definition: static, at the origin, no damping. -/
def BodyDef.default : BodyDef :=
  ⟨.staticBody, ⟨0, 0⟩, 0, 0⟩

/-- A rigid body (`b2Body`): transform, velocities, force/torque
accumulators, damping, mass data and attached fixtures. -/
structure Body where
  type : BodyType
  pos : Vec2
  angle : ℚ
  rot : Rot
  linVel : Vec2
  angVel : ℚ
  force : Vec2
  torque : ℚ
  linearDamping : ℚ
  angularDamping : ℚ
  mass : ℚ
  invMass : ℚ
  inertia : ℚ
  invInertia : ℚ
  fixtures : List Fixture
deriving DecidableEq, Repr

instance : Inhabited Body :=
  ⟨⟨.staticBody, ⟨0, 0⟩, 0, Rot.identity, ⟨0, 0⟩, 0, ⟨0, 0⟩, 0, 0, 0, 0, 0, 0, 0, []⟩⟩

/-- `b2Body::b2Body(def)`: a fresh body from a definition.  A dynamic body
starts with unit mass until a fixture recomputes it (`ResetMassData`). -/
def Body.fromDef (bd : BodyDef) : Body where
  type := bd.type
  pos := bd.position
  angle := 0
  rot := Rot.identity
  linVel := ⟨0, 0⟩
  angVel := 0
  force := ⟨0, 0⟩
  torque := 0
  linearDamping := bd.linearDamping
  angularDamping := bd.angularDamping
  mass := if bd.type = .dynamicBody then 1 else 0
  invMass := if bd.type = .dynamicBody then 1 else 0
  inertia := 0
  invInertia := 0
  fixtures := []

/-- `b2Body::ResetMassData`: recompute mass data from the fixtures.  All
fixtures in this scene are centred at the body origin, so the local-center
bookkeeping of the engine drops out. -/
def Body.resetMassData (b : Body) : Body :=
  if b.type = .dynamicBody then
    let totals := b.fixtures.foldl
      (fun acc f =>
        if f.density = 0 then acc
        else
          let md := f.shape.computeMass f.density
          (acc.1 + md.1, acc.2 + md.2))
      ((0 : ℚ), (0 : ℚ))
    let m := if totals.1 > 0 then totals.1 else 1
    let im := if totals.1 > 0 then totals.1⁻¹ else 1
    let i := if totals.2 > 0 then totals.2 else 0
    let ii := if totals.2 > 0 then totals.2⁻¹ else 0
    { b with mass := m, invMass := im, inertia := i, invInertia := ii }
  else
    { b with mass := 0, invMass := 0, inertia := 0, invInertia := 0 }

/-- `b2Body::CreateFixture`: attach a fixture and recompute mass data. -/
def Body.createFixture (b : Body) (f : Fixture) : Body :=
  Body.resetMassData { b with fixtures := b.fixtures ++ [f] }

/-- `b2Body::GetWorldVector(v)`: rotate a local-frame vector into the
world frame using the body's current rotation. -/
def Body.getWorldVector (b : Body) (v : Vec2) : Vec2 :=
  b.rot.mulVec v

/-- `b2Body::ApplyForceToCenter(force, wake)`: accumulate a force at the
center of mass.  Every call in this file passes `wake = true` on an awake
body, so the accumulation is unconditional here. -/
def Body.applyForceToCenter (b : Body) (f : Vec2) : Body :=
  { b with force := b.force + f }

/-- `b2Body::ApplyTorque(torque, wake)`: accumulate a torque. -/
def Body.applyTorque (b : Body) (t : ℚ) : Body :=
  { b with torque := b.torque + t }

/-- A point light, modelling the fork's `b2LightDef` fields set here. -/
structure Light where
  bodyIdx : Nat
  color : Color
  intensity : ℚ
  attenuation_distance : ℚ
  position : Vec2
deriving DecidableEq, Repr

/-- The physics world (`b2World` plus the fork's lights): gravity and the
bodies in creation order. -/
structure World where
  gravity : Vec2
  bodies : List Body
  lights : List Light
deriving Repr

/-- `b2World::CreateBody`: append a fresh body, returning its index. -/
def World.createBody (w : World) (bd : BodyDef) : World × Nat :=
  ({ w with bodies := w.bodies ++ [Body.fromDef bd] }, w.bodies.length)

/-- Apply a function to the body at an index. -/
def World.modifyBody (w : World) (i : Nat) (f : Body → Body) : World :=
  { w with bodies := w.bodies.set i (f (w.bodies.getD i default)) }

/-- Attach a fixture to the body at an index. -/
def World.createFixture (w : World) (i : Nat) (f : Fixture) : World :=
  w.modifyBody i (fun b => b.createFixture f)

/-- The body at an index (default body when out of range). -/
def World.bodyAt (w : World) (i : Nat) : Body :=
  w.bodies.getD i default

/-- `b2World::CreateLight`. -/
def World.createLight (w : World) (l : Light) : World :=
  { w with lights := w.lights ++ [l] }

/-- Number of dynamic bodies in the world. -/
def World.dynamicCount (w : World) : Nat :=
  w.bodies.countP (fun b => b.type = .dynamicBody)

/-- One solver pass over a single body, Box2D 2.3 semi-implicit Euler
(no contacts): for a dynamic body,
`v += h·(gravity + invMass·force)`, `ω += h·invI·torque`, then damping
`v *= 1/(1 + h·linearDamping)`, `ω *= 1/(1 + h·angularDamping)`, then
`pos += h·v`, `angle += h·ω`, and the rotation is re-set from the new
angle via the supplied cosine/sine pair.  Static bodies are skipped. -/
def Body.integrate (trig : ℚ → ℚ × ℚ) (gravity : Vec2) (h : ℚ) (b : Body) : Body :=
  if b.type = .dynamicBody then
    let v1 := b.linVel + Vec2.smul h (gravity + Vec2.smul b.invMass b.force)
    let w1 := b.angVel + h * b.invInertia * b.torque
    let v2 := Vec2.smul (1 / (1 + h * b.linearDamping)) v1
    let w2 := (1 / (1 + h * b.angularDamping)) * w1
    let p2 := b.pos + Vec2.smul h v2
    let a2 := b.angle + h * w2
    let tr := trig a2
    { b with linVel := v2, angVel := w2, pos := p2, angle := a2,
             rot := ⟨tr.1, tr.2⟩ }
  else b

/-- `b2World::Step(h, ...)` for this scene's contact-free situations:
integrate every body, then clear all force accumulators
(`ClearForces`, run automatically at the end of `Step`). -/
def World.step (w : World) (trig : ℚ → ℚ × ℚ) (h : ℚ) : World :=
  let integrated := w.bodies.map (Body.integrate trig w.gravity h)
  let cleared := integrated.map (fun b => { b with force := ⟨0, 0⟩, torque := 0 })
  { w with bodies := cleared }

/-- An axis-aligned rectangle, modelling `phys::Rect(x, y, w, h)`. -/
structure Rect where
  x : ℚ
  y : ℚ
  w : ℚ
  h : ℚ
deriving DecidableEq, Repr

/-- Modelled from the spec: the scene configuration (`drone_scene::Config`,
declared in `scene_drone.h`, which is not available).  The spec names the
recognized keys — drone radius, move force magnitude, rotate torque
magnitude, all floats — with engine defaults used when absent. -/
structure Config where
  drone_radius : ℚ
  move_force : ℚ
  rotate_torque : ℚ
deriving DecidableEq, Repr

/-- Modelled from the spec: the default configuration values.  The header
holding the concrete defaults is not available; the spec fixes only that
defaults exist, and no claim depends on the particular numbers, only on
the drone radius being a positive float. -/
def Config.default : Config :=
  ⟨1/2, 5, 1⟩

/-- Modelled from the spec: the derived-variables struct
(`drone_scene::SceneVariables`, declared in `scene_drone.h`, not
available): drone x, y, vx, vy and heading, each a float defaulting
to zero. -/
structure SceneVariables where
  drone_x : ℚ
  drone_y : ℚ
  drone_vx : ℚ
  drone_vy : ℚ
  drone_dir : ℚ
deriving DecidableEq, Repr

/-- Default-initialised derived variables (all zero). -/
def SceneVariables.default : SceneVariables :=
  ⟨0, 0, 0, 0, 0⟩

/-- The camera sensor (`phys::Camera(body, fov, near, far, resolution)`):
construction records the body and parameters. -/
structure Camera where
  bodyIdx : Nat
  fov : ℚ
  near : ℚ
  far : ℚ
  resolution : Nat
deriving DecidableEq, Repr

/-- The touch sensor (`phys::TouchSensor(body, resolution)`). -/
structure TouchSensor where
  bodyIdx : Nat
  resolution : Nat
deriving DecidableEq, Repr

/-- The accelerometer (`phys::Accelerometer(body)`).  Its internals live in
the external physics library; for the claims below only the fact that
`update(dt)` is invoked matters, so the model records the sequence of `dt`
values passed to `update`, most recent first. -/
structure Accelerometer where
  bodyIdx : Nat
  updates : List ℚ
deriving DecidableEq, Repr

/-- `phys::Accelerometer::update(dt)`: record the call. -/
def Accelerometer.update (a : Accelerometer) (dt : ℚ) : Accelerometer :=
  { a with updates := dt :: a.updates }

/-- The compass sensor (`phys::Compass(body)`). -/
structure Compass where
  bodyIdx : Nat
deriving DecidableEq, Repr

/-- The drone scene (`drone_scene::Scene`).  `phys::Scene` (the base class,
from the external physics layer) owns the world and the extents rectangle;
the derived class adds the drone body handle, the four sensors, the copied
configuration and the derived-variables struct (`variables_`, named `vars`
here because `variables` is reserved in Lean). -/
structure Scene where
  world : World
  extents : Rect
  droneIdx : Nat
  wallsIdx : Nat
  camera : Camera
  touch : TouchSensor
  accelerometer : Accelerometer
  compass : Compass
  config : Config
  vars : SceneVariables
deriving Repr

/-- The drone body of a scene. -/
def Scene.drone (s : Scene) : Body :=
  s.world.bodyAt s.droneIdx

/-- The wall fixture definition shared by the four wall edges
(lines 30–35 of the source): friction 1, restitution 0.5, density unset,
color (1,1,0), emit intensity 0.1. -/
def wallFixtureDef (v1 v2 : Vec2) : Fixture where
  shape := .edge v1 v2
  friction := 1
  restitution := 1/2
  density := 0
  material := { Material.default with color := ⟨1, 1, 0⟩, emit_intensity := 1/10 }

/-- `Scene::Scene(config)` (lines 19–88): base `phys::Scene` with zero
gravity and extents `(-10, -10, 20, 20)`; copy the configuration if one is
given; create the static walls body with four edge fixtures; create the
dynamic drone body (damping 10/10, circle of the configured radius,
density 0.1, friction 1, restitution 0.2, color (0,0,1), emit 0.5); create
two point lights on the walls body; construct the four sensors on the
drone body. -/
def sceneInit (config : Option Config) : Scene :=
  let w0 : World := { gravity := ⟨0, 0⟩, bodies := [], lights := [] }
  let cfg := match config with
    | some c => c
    | none => Config.default
  -- walls
  let r1 := w0.createBody { BodyDef.default with type := .staticBody, position := ⟨0, 0⟩ }
  let wallsIdx := r1.2
  let w2 := r1.1.createFixture wallsIdx (wallFixtureDef ⟨-10, -10⟩ ⟨10, -10⟩)
  let w3 := w2.createFixture wallsIdx (wallFixtureDef ⟨-10, -10⟩ ⟨-10, 10⟩)
  let w4 := w3.createFixture wallsIdx (wallFixtureDef ⟨10, -10⟩ ⟨10, 10⟩)
  let w5 := w4.createFixture wallsIdx (wallFixtureDef ⟨-10, 10⟩ ⟨10, 10⟩)
  -- drone
  let r2 := w5.createBody
    { type := .dynamicBody, position := ⟨0, 0⟩, linearDamping := 10, angularDamping := 10 }
  let droneIdx := r2.2
  let w6 := r2.1.createFixture droneIdx
    { shape := .circle cfg.drone_radius
      friction := 1
      restitution := 1/5
      density := 1/10
      material := { Material.default with color := ⟨0, 0, 1⟩, emit_intensity := 1/2 } }
  -- lights
  let w7 := w6.createLight
    { bodyIdx := wallsIdx, color := ⟨1, 1, 1⟩, intensity := 2,
      attenuation_distance := 25, position := ⟨9, -9⟩ }
  let w8 := w7.createLight
    { bodyIdx := wallsIdx, color := ⟨1, 1, 1⟩, intensity := 2,
      attenuation_distance := 25, position := ⟨-9, -9⟩ }
  -- sensors
  { world := w8
    extents := ⟨-10, -10, 20, 20⟩
    droneIdx := droneIdx
    wallsIdx := wallsIdx
    camera := ⟨droneIdx, 120, 1/10, 30, 512⟩
    touch := ⟨droneIdx, 16⟩
    accelerometer := ⟨droneIdx, []⟩
    compass := ⟨droneIdx⟩
    config := cfg
    vars := SceneVariables.default }

/-- `Scene::updateVariables` (lines 147–153): copy the drone body's
position, linear velocity and angle into the derived-variables struct. -/
def Scene.updateVariables (s : Scene) : Scene :=
  let d := s.drone
  { s with vars :=
      { drone_x := d.pos.x
        drone_y := d.pos.y
        drone_vx := d.linVel.x
        drone_vy := d.linVel.y
        drone_dir := d.angle } }

/-- `Scene::postStep(dt)` (lines 90–93): update the accelerometer with
`dt`, then recompute the derived variables. -/
def Scene.postStep (s : Scene) (dt : ℚ) : Scene :=
  let s1 := { s with accelerometer := s.accelerometer.update dt }
  s1.updateVariables

/-- `Scene::moveDrone(force)` (lines 95–97): rotate the local-frame force
into the world frame and accumulate it at the drone's center of mass. -/
def Scene.moveDrone (s : Scene) (force : Vec2) : Scene :=
  let w := s.world.modifyBody s.droneIdx
    (fun d => d.applyForceToCenter (d.getWorldVector force))
  { s with world := w }

/-- `Scene::rotateDrone(torque)` (lines 99–101). -/
def Scene.rotateDrone (s : Scene) (torque : ℚ) : Scene :=
  let w := s.world.modifyBody s.droneIdx (fun d => d.applyTorque torque)
  { s with world := w }

/-- `Scene::addBalloon(x, y, radius)` (lines 103–123): a new dynamic body
at `(x, y)` with damping 1/1 and one circle fixture of the given radius
(density 0.02, friction 1, restitution 0.9, color (1,0,0), shininess 10,
emit 0.1). -/
def Scene.addBalloon (s : Scene) (x y radius : ℚ) : Scene :=
  let r := s.world.createBody
    { type := .dynamicBody, position := ⟨x, y⟩, linearDamping := 1, angularDamping := 1 }
  let w := r.1.createFixture r.2
    { shape := .circle radius
      friction := 1
      restitution := 9/10
      density := 1/50
      material := ⟨⟨1, 0, 0⟩, 10, 1/10⟩ }
  { s with world := w }

/-- `Scene::addBox(x, y, sx, sy)` (lines 125–145): a new dynamic body at
`(x, y)` with damping 2/2 and one box fixture of half-extents `(sx, sy)`
(density 0.5, friction 1, restitution 0.5, color (0,1,0), shininess 25,
emit 0.1). -/
def Scene.addBox (s : Scene) (x y sx sy : ℚ) : Scene :=
  let r := s.world.createBody
    { type := .dynamicBody, position := ⟨x, y⟩, linearDamping := 2, angularDamping := 2 }
  let w := r.1.createFixture r.2
    { shape := .box sx sy
      friction := 1
      restitution := 1/2
      density := 1/2
      material := ⟨⟨0, 1, 0⟩, 25, 1/10⟩ }
  { s with world := w }

/-! ## The companion UI (`drone_scene::SceneUi`)

`SceneUi` holds only a non-owning reference to the scene and a loaded
sprite image, so its operations are modelled as functions on the scene.
Painting calls on the Qt `QPainter` are recorded as a command list. -/

/-- Which mouse buttons are held in a press event (`event->buttons()`
masked with `Qt::LeftButton` / `Qt::RightButton`). -/
structure MouseButtons where
  left : Bool
  right : Bool
deriving DecidableEq, Repr

/-- Which of the six handled keys are held (`keyPressed(...)`) during a
`SceneUi::step()` poll. -/
structure KeysHeld where
  keyLeft : Bool
  keyRight : Bool
  keyUp : Bool
  keyDown : Bool
  keyQ : Bool
  keyW : Bool
deriving DecidableEq, Repr

/-- `math::radiansToDegrees` (from `core/math_2d.h`, not available):
exact radian-to-degree conversion, with the engine's rational stand-in
for π; no claim depends on the constant's value. -/
def radiansToDegrees (a : ℚ) : ℚ :=
  a * 180 / b2_pi

/-- C++ `int(q)`: truncation toward zero. -/
def truncToInt (q : ℚ) : ℤ :=
  q.num / (q.den : ℤ)

/-- `b2Body::GetWorldPoint(v)`: body transform applied to a local point. -/
def Body.getWorldPoint (b : Body) (v : Vec2) : Vec2 :=
  b.pos + b.rot.mulVec v

/-- One recorded `QPainter` call. -/
inductive PaintCmd where
  | setPenNone
  | setBrush (r g b a : ℕ)
  | drawPie (topLeft bottomRight : Vec2) (startAngle spanAngle : ℤ)
  | save
  | translate (dx dy : ℚ)
  | scale (sx sy : ℚ)
  | rotateBy (degrees : ℚ)
  | drawPixmap (x y w h : ℚ)
  | restore
deriving DecidableEq, Repr

namespace SceneUi

/-- `SceneUi::renderCamera` (lines 155–168): a translucent pie slice of
radius `far`, centred on the camera body's world origin, spanning the
field of view rotated to the body's heading. -/
def renderCamera (s : Scene) (camera : Camera) : List PaintCmd :=
  let body := s.world.bodyAt camera.bodyIdx
  let far := camera.far
  let fov := camera.fov
  let pos := body.getWorldPoint ⟨0, 0⟩
  let center : Vec2 := ⟨pos.x, pos.y⟩
  let topLeft : Vec2 := ⟨center.x - far, center.y - far⟩
  let bottomRight : Vec2 := ⟨center.x + far, center.y + far⟩
  let angle := radiansToDegrees body.angle + 90 + fov / 2
  [.setPenNone, .setBrush 64 64 64 32,
   .drawPie topLeft bottomRight (truncToInt (-angle * 16)) (truncToInt (fov * 16))]

/-- `SceneUi::renderDrone` (lines 170–181): the sprite drawn at the
drone's derived position, flipped vertically and rotated to its heading. -/
def renderDrone (s : Scene) : List PaintCmd :=
  let radius := s.config.drone_radius
  [.save,
   .translate s.vars.drone_x s.vars.drone_y,
   .scale 1 (-1),
   .rotateBy (radiansToDegrees (-s.vars.drone_dir)),
   .drawPixmap (-radius) (-radius) (radius * 2) (radius * 2),
   .restore]

/-- `SceneUi::render` (lines 183–186): drone sprite, then camera frustum.
The C++ method is `const` on the scene; the unchanged scene is returned
alongside the recorded paint calls so the frame condition can be stated. -/
def render (s : Scene) : List PaintCmd × Scene :=
  (renderDrone s ++ renderCamera s s.camera, s)

/-- `SceneUi::step` (lines 188–209): read the configured magnitudes, then
issue one control call per held key, in source order. -/
def step (keys : KeysHeld) (s : Scene) : Scene :=
  let move_force := s.config.move_force
  let rotate_torque := s.config.rotate_torque
  let s1 := if keys.keyLeft then s.moveDrone ⟨-move_force, 0⟩ else s
  let s2 := if keys.keyRight then s1.moveDrone ⟨move_force, 0⟩ else s1
  let s3 := if keys.keyUp then s2.moveDrone ⟨0, move_force⟩ else s2
  let s4 := if keys.keyDown then s3.moveDrone ⟨0, -move_force⟩ else s3
  let s5 := if keys.keyQ then s4.rotateDrone rotate_torque else s4
  let s6 := if keys.keyW then s5.rotateDrone (-rotate_torque) else s5
  s6

/-- `SceneUi::mousePressEvent` (lines 211–222): left button held spawns a
balloon of radius 0.8 at the event's world position, right button held
spawns a box of half-extents (0.5, 2.0) there; the two tests are
independent. -/
def mousePressEvent (s : Scene) (pos : Vec2) (buttons : MouseButtons) : Scene :=
  let x := pos.x
  let y := pos.y
  let s1 := if buttons.left then s.addBalloon x y (4/5) else s
  let s2 := if buttons.right then s1.addBox x y (1/2) 2 else s1
  s2

end SceneUi

/-! ## Helper lemmas -/

@[simp]
lemma Vec2.add_x (a b : Vec2) : (a + b).x = a.x + b.x :=
  rfl

@[simp]
lemma Vec2.add_y (a b : Vec2) : (a + b).y = a.y + b.y :=
  rfl

@[simp]
lemma Vec2.smul_x (c : ℚ) (v : Vec2) : (Vec2.smul c v).x = c * v.x :=
  rfl

@[simp]
lemma Vec2.smul_y (c : ℚ) (v : Vec2) : (Vec2.smul c v).y = c * v.y :=
  rfl

lemma Vec2.eq_of_parts {a b : Vec2} (hx : a.x = b.x) (hy : a.y = b.y) : a = b := by
  cases a
  cases b
  simp_all

@[simp]
lemma Vec2.zero_x : (0 : Vec2).x = 0 :=
  rfl

@[simp]
lemma Vec2.zero_y : (0 : Vec2).y = 0 :=
  rfl

@[simp]
lemma Vec2.add_zero_right (v : Vec2) : v + (0 : Vec2) = v := by
  apply Vec2.eq_of_parts <;> simp

lemma set_append_singleton {α : Type} (l : List α) (a b : α) :
    (l ++ [a]).set l.length b = l ++ [b] := by
  induction l with
  | nil => rfl
  | cons x xs ih => simp [ih]

lemma getD_append_singleton {α : Type} [Inhabited α] (l : List α) (a d : α) :
    (l ++ [a]).getD l.length d = a := by
  induction l with
  | nil => rfl
  | cons x xs ih => simp_all [List.getD_cons_succ]

/-- The exact body that `Scene::addBalloon` creates. -/
def balloonBody (x y radius : ℚ) : Body :=
  (Body.fromDef ⟨.dynamicBody, ⟨x, y⟩, 1, 1⟩).createFixture
    ⟨.circle radius, 1, 9/10, 1/50, ⟨⟨1, 0, 0⟩, 10, 1/10⟩⟩

/-- The exact body that `Scene::addBox` creates. -/
def boxBody (x y sx sy : ℚ) : Body :=
  (Body.fromDef ⟨.dynamicBody, ⟨x, y⟩, 2, 2⟩).createFixture
    ⟨.box sx sy, 1, 1/2, 1/2, ⟨⟨0, 1, 0⟩, 25, 1/10⟩⟩

lemma addBalloon_bodies (s : Scene) (x y r : ℚ) :
    (s.addBalloon x y r).world.bodies = s.world.bodies ++ [balloonBody x y r] := by
  simp [Scene.addBalloon, World.createBody, World.createFixture, World.modifyBody,
    balloonBody, set_append_singleton, getD_append_singleton]

lemma addBox_bodies (s : Scene) (x y sx sy : ℚ) :
    (s.addBox x y sx sy).world.bodies = s.world.bodies ++ [boxBody x y sx sy] := by
  simp [Scene.addBox, World.createBody, World.createFixture, World.modifyBody,
    boxBody, set_append_singleton, getD_append_singleton]

@[simp]
lemma balloonBody_type (x y r : ℚ) : (balloonBody x y r).type = .dynamicBody := by
  simp [balloonBody, Body.createFixture, Body.resetMassData, Body.fromDef]

@[simp]
lemma boxBody_type (x y sx sy : ℚ) : (boxBody x y sx sy).type = .dynamicBody := by
  simp [boxBody, Body.createFixture, Body.resetMassData, Body.fromDef]

@[simp]
lemma balloonBody_pos (x y r : ℚ) : (balloonBody x y r).pos = ⟨x, y⟩ := by
  simp [balloonBody, Body.createFixture, Body.resetMassData, Body.fromDef]

@[simp]
lemma boxBody_pos (x y sx sy : ℚ) : (boxBody x y sx sy).pos = ⟨x, y⟩ := by
  simp [boxBody, Body.createFixture, Body.resetMassData, Body.fromDef]

@[simp]
lemma Body.applyForceToCenter_force (b : Body) (g : Vec2) :
    (b.applyForceToCenter g).force = b.force + g :=
  rfl

@[simp]
lemma Body.applyForceToCenter_torque (b : Body) (g : Vec2) :
    (b.applyForceToCenter g).torque = b.torque :=
  rfl

@[simp]
lemma Body.applyForceToCenter_getWorldVector (b : Body) (g v : Vec2) :
    (b.applyForceToCenter g).getWorldVector v = b.getWorldVector v :=
  rfl

@[simp]
lemma Body.applyTorque_force (b : Body) (t : ℚ) :
    (b.applyTorque t).force = b.force :=
  rfl

@[simp]
lemma Body.applyTorque_torque (b : Body) (t : ℚ) :
    (b.applyTorque t).torque = b.torque + t :=
  rfl

@[simp]
lemma Body.applyTorque_getWorldVector (b : Body) (t : ℚ) (v : Vec2) :
    (b.applyTorque t).getWorldVector v = b.getWorldVector v :=
  rfl

@[simp]
lemma Scene.moveDrone_droneIdx (s : Scene) (f : Vec2) :
    (s.moveDrone f).droneIdx = s.droneIdx :=
  rfl

@[simp]
lemma Scene.rotateDrone_droneIdx (s : Scene) (t : ℚ) :
    (s.rotateDrone t).droneIdx = s.droneIdx :=
  rfl

@[simp]
lemma Scene.moveDrone_bodies_length (s : Scene) (f : Vec2) :
    (s.moveDrone f).world.bodies.length = s.world.bodies.length := by
  simp [Scene.moveDrone, World.modifyBody]

@[simp]
lemma Scene.rotateDrone_bodies_length (s : Scene) (t : ℚ) :
    (s.rotateDrone t).world.bodies.length = s.world.bodies.length := by
  simp [Scene.rotateDrone, World.modifyBody]

@[simp]
lemma Scene.moveDrone_config (s : Scene) (f : Vec2) :
    (s.moveDrone f).config = s.config :=
  rfl

@[simp]
lemma Scene.rotateDrone_config (s : Scene) (t : ℚ) :
    (s.rotateDrone t).config = s.config :=
  rfl

lemma getD_set_self {α : Type} [Inhabited α] (l : List α) (i : Nat) (a d : α)
    (h : i < l.length) : (l.set i a).getD i d = a := by
  simp [List.getD, List.getElem?_set_self, h]

lemma Scene.moveDrone_drone (s : Scene) (f : Vec2)
    (h : s.droneIdx < s.world.bodies.length) :
    (s.moveDrone f).drone = s.drone.applyForceToCenter (s.drone.getWorldVector f) := by
  simp [Scene.moveDrone, Scene.drone, World.modifyBody, World.bodyAt,
    getD_set_self, h, List.getD]

lemma Scene.rotateDrone_drone (s : Scene) (t : ℚ)
    (h : s.droneIdx < s.world.bodies.length) :
    (s.rotateDrone t).drone = s.drone.applyTorque t := by
  simp [Scene.rotateDrone, Scene.drone, World.modifyBody, World.bodyAt,
    getD_set_self, h, List.getD]

lemma World.bodyAt_step (w : World) (trig : ℚ → ℚ × ℚ) (h : ℚ) (i : Nat)
    (hi : i < w.bodies.length) :
    (w.step trig h).bodyAt i =
      { Body.integrate trig w.gravity h (w.bodyAt i) with force := ⟨0, 0⟩, torque := 0 } := by
  simp [World.step, World.bodyAt, List.getD, List.getElem?_map,
    List.getElem?_eq_getElem, hi]

@[simp]
lemma Body.applyForceToCenter_type (b : Body) (g : Vec2) :
    (b.applyForceToCenter g).type = b.type :=
  rfl

@[simp]
lemma Body.applyForceToCenter_pos (b : Body) (g : Vec2) :
    (b.applyForceToCenter g).pos = b.pos :=
  rfl

@[simp]
lemma Body.applyForceToCenter_linVel (b : Body) (g : Vec2) :
    (b.applyForceToCenter g).linVel = b.linVel :=
  rfl

@[simp]
lemma Body.applyForceToCenter_invMass (b : Body) (g : Vec2) :
    (b.applyForceToCenter g).invMass = b.invMass :=
  rfl

@[simp]
lemma Body.applyForceToCenter_linearDamping (b : Body) (g : Vec2) :
    (b.applyForceToCenter g).linearDamping = b.linearDamping :=
  rfl

@[simp]
lemma Scene.moveDrone_world_gravity (s : Scene) (f : Vec2) :
    (s.moveDrone f).world.gravity = s.world.gravity :=
  rfl

@[simp]
lemma balloonBody_linVel (x y r : ℚ) : (balloonBody x y r).linVel = ⟨0, 0⟩ := by
  simp [balloonBody, Body.createFixture, Body.resetMassData, Body.fromDef]

@[simp]
lemma balloonBody_force (x y r : ℚ) : (balloonBody x y r).force = ⟨0, 0⟩ := by
  simp [balloonBody, Body.createFixture, Body.resetMassData, Body.fromDef]

@[simp]
lemma boxBody_linVel (x y sx sy : ℚ) : (boxBody x y sx sy).linVel = ⟨0, 0⟩ := by
  simp [boxBody, Body.createFixture, Body.resetMassData, Body.fromDef]

@[simp]
lemma boxBody_force (x y sx sy : ℚ) : (boxBody x y sx sy).force = ⟨0, 0⟩ := by
  simp [boxBody, Body.createFixture, Body.resetMassData, Body.fromDef]

/-! ## Claim theorems -/

/-- C1: Immediately after `Scene::Scene` (with or without a configuration
object), the derived-variables struct equals the drone body's initial
transform: `drone_x = 0`, `drone_y = 0`, `drone_vx = 0`, `drone_vy = 0`,
`drone_dir = 0`. -/
theorem sceneInit_vars_equal_drone_initial_transform (cfg : Option Config) :
    (sceneInit cfg).vars
      = ⟨(sceneInit cfg).drone.pos.x, (sceneInit cfg).drone.pos.y,
         (sceneInit cfg).drone.linVel.x, (sceneInit cfg).drone.linVel.y,
         (sceneInit cfg).drone.angle⟩ ∧
    (sceneInit cfg).vars = ⟨0, 0, 0, 0, 0⟩ ∧
    (sceneInit cfg).drone.pos = ⟨0, 0⟩ ∧
    (sceneInit cfg).drone.linVel = ⟨0, 0⟩ ∧
    (sceneInit cfg).drone.angle = 0 :=
  ⟨rfl, rfl, rfl, rfl, rfl⟩

/-- C2: For every `dt ≥ 0`, `postStep(dt)` records an accelerometer update
with `dt` and sets the derived variables to exactly the drone body's
current position, linear velocity and angle as reported by the physics
world at the time of the call (which `postStep` leaves untouched). -/
theorem postStep_snapshots_drone_state (s : Scene) (dt : ℚ) (_hdt : 0 ≤ dt) :
    (s.postStep dt).vars
      = ⟨s.drone.pos.x, s.drone.pos.y,
         s.drone.linVel.x, s.drone.linVel.y, s.drone.angle⟩ ∧
    (s.postStep dt).accelerometer = s.accelerometer.update dt ∧
    (s.postStep dt).accelerometer.updates = dt :: s.accelerometer.updates ∧
    (s.postStep dt).world = s.world :=
  ⟨rfl, rfl, rfl, rfl⟩

/-- Witness for C2 at the freshly constructed scene and `dt = 1`. -/
theorem postStep_snapshots_drone_state_witness :
    (0 : ℚ) ≤ 1 ∧
    ((sceneInit none).postStep 1).vars
      = ⟨(sceneInit none).drone.pos.x, (sceneInit none).drone.pos.y,
         (sceneInit none).drone.linVel.x, (sceneInit none).drone.linVel.y,
         (sceneInit none).drone.angle⟩ :=
  ⟨by norm_num, (postStep_snapshots_drone_state (sceneInit none) 1 (by norm_num)).1⟩

/-- C4: `addBalloon(x, y, r)` appends exactly one new dynamic body whose
initial position is `(x, y)`; no other body is created or removed, and the
dynamic body count grows by exactly one. -/
theorem addBalloon_adds_exactly_one_dynamic_body (s : Scene) (x y r : ℚ) :
    (s.addBalloon x y r).world.bodies = s.world.bodies ++ [balloonBody x y r] ∧
    (balloonBody x y r).pos = ⟨x, y⟩ ∧
    (balloonBody x y r).type = .dynamicBody ∧
    (s.addBalloon x y r).world.dynamicCount = s.world.dynamicCount + 1 ∧
    (s.addBalloon x y r).world.lights = s.world.lights := by
  refine ⟨addBalloon_bodies s x y r, balloonBody_pos x y r, balloonBody_type x y r, ?_, rfl⟩
  simp [World.dynamicCount, addBalloon_bodies, List.countP_append, List.countP_cons]

/-- C5: a pointer press at world position `(x, y)` spawns exactly one
balloon of radius 0.8 when the left button is held, exactly one box of
half-extents `(0.5, 2.0)` when the right button is held, both when both
buttons are held, and nothing when neither is held. -/
theorem mousePressEvent_spawn_cases (s : Scene) (pos : Vec2) (buttons : MouseButtons) :
    (SceneUi.mousePressEvent s pos buttons).world.bodies
      = s.world.bodies
        ++ ((if buttons.left then [balloonBody pos.x pos.y (4/5)] else [])
            ++ (if buttons.right then [boxBody pos.x pos.y (1/2) 2] else [])) := by
  rcases buttons with ⟨l, r⟩
  cases l <;> cases r <;>
    simp [SceneUi.mousePressEvent, addBalloon_bodies, addBox_bodies]

/-- C7: `Scene::Scene` builds exactly: a static walls body with four edge
fixtures forming the fixed square boundary, one dynamic circular drone
body of the configured radius with linear and angular damping 10, two
point lights attached to the walls body, and four sensors (camera, touch
sensor, accelerometer, compass) attached to the drone body. -/
theorem sceneInit_builds_walls_drone_lights_sensors (cfg : Option Config) :
    (sceneInit cfg).world.bodies.length = 2 ∧
    ((sceneInit cfg).world.bodyAt (sceneInit cfg).wallsIdx).type = .staticBody ∧
    ((sceneInit cfg).world.bodyAt (sceneInit cfg).wallsIdx).fixtures.map Fixture.shape
      = [.edge ⟨-10, -10⟩ ⟨10, -10⟩, .edge ⟨-10, -10⟩ ⟨-10, 10⟩,
         .edge ⟨10, -10⟩ ⟨10, 10⟩, .edge ⟨-10, 10⟩ ⟨10, 10⟩] ∧
    (sceneInit cfg).drone.type = .dynamicBody ∧
    (sceneInit cfg).drone.fixtures.map Fixture.shape
      = [.circle (sceneInit cfg).config.drone_radius] ∧
    (sceneInit cfg).drone.linearDamping = 10 ∧
    (sceneInit cfg).drone.angularDamping = 10 ∧
    (sceneInit cfg).world.lights.map Light.bodyIdx
      = [(sceneInit cfg).wallsIdx, (sceneInit cfg).wallsIdx] ∧
    (sceneInit cfg).camera.bodyIdx = (sceneInit cfg).droneIdx ∧
    (sceneInit cfg).touch.bodyIdx = (sceneInit cfg).droneIdx ∧
    (sceneInit cfg).accelerometer.bodyIdx = (sceneInit cfg).droneIdx ∧
    (sceneInit cfg).compass.bodyIdx = (sceneInit cfg).droneIdx :=
  ⟨rfl, rfl, rfl, rfl, rfl, rfl, rfl, rfl, rfl, rfl, rfl, rfl⟩

/-- C8: a supplied configuration object is copied into the scene's
configuration at construction; a null configuration leaves the defaults in
place and construction still succeeds. -/
theorem sceneInit_config_copied_or_defaults (c : Config) :
    (sceneInit (some c)).config = c ∧
    (sceneInit none).config = Config.default :=
  ⟨rfl, rfl⟩

/-- C9: among the Scene/SceneUi operations only `postStep` (via
`updateVariables`) writes the derived-variables struct: `moveDrone`,
`rotateDrone`, `addBalloon`, `addBox`, `render`, `step` and
`mousePressEvent` all leave it unchanged, and `postStep` resets it to the
physics world's current drone state. -/
theorem only_postStep_writes_vars (s : Scene) (f : Vec2) (t x y r sx sy dt : ℚ)
    (keys : KeysHeld) (buttons : MouseButtons) (pos : Vec2) :
    (s.moveDrone f).vars = s.vars ∧
    (s.rotateDrone t).vars = s.vars ∧
    (s.addBalloon x y r).vars = s.vars ∧
    (s.addBox x y sx sy).vars = s.vars ∧
    (SceneUi.render s).2 = s ∧
    (SceneUi.step keys s).vars = s.vars ∧
    (SceneUi.mousePressEvent s pos buttons).vars = s.vars ∧
    (s.postStep dt).vars
      = ⟨s.drone.pos.x, s.drone.pos.y,
         s.drone.linVel.x, s.drone.linVel.y, s.drone.angle⟩ := by
  refine ⟨rfl, rfl, rfl, rfl, rfl, ?_, ?_, rfl⟩
  · rcases keys with ⟨a, b, c, d, e, g⟩
    cases a <;> cases b <;> cases c <;> cases d <;> cases e <;> cases g <;> rfl
  · rcases buttons with ⟨a, b⟩
    cases a <;> cases b <;> rfl

/-- C3: `moveDrone(f)` accumulates, at the drone's center of mass, the
force obtained by rotating `f` from the drone's local frame into the world
frame, as a continuous force for the current step only: the call itself
changes no velocity (no impulse), the next step of the zero-gravity world
turns the accumulated force into a velocity that is a positive multiple of
the world-frame direction of `f` (component-wise, starting from rest), and
the step then clears the accumulator. -/
theorem moveDrone_world_frame_force_step_velocity
    (s : Scene) (f : Vec2) (trig : ℚ → ℚ × ℚ) (dt : ℚ)
    (hidx : s.droneIdx < s.world.bodies.length)
    (hdyn : s.drone.type = .dynamicBody)
    (hgrav : s.world.gravity = ⟨0, 0⟩)
    (hforce : s.drone.force = ⟨0, 0⟩)
    (hrest : s.drone.linVel = ⟨0, 0⟩)
    (hdt : 0 < dt)
    (hdamp : 0 ≤ s.drone.linearDamping)
    (him : 0 < s.drone.invMass) :
    (s.moveDrone f).drone.force = s.drone.force + s.drone.rot.mulVec f ∧
    (s.moveDrone f).drone.linVel = s.drone.linVel ∧
    (s.moveDrone f).drone.pos = s.drone.pos ∧
    0 < dt * s.drone.invMass / (1 + dt * s.drone.linearDamping) ∧
    (((s.moveDrone f).world.step trig dt).bodyAt s.droneIdx).linVel
      = Vec2.smul (dt * s.drone.invMass / (1 + dt * s.drone.linearDamping))
          (s.drone.rot.mulVec f) ∧
    (((s.moveDrone f).world.step trig dt).bodyAt s.droneIdx).force = ⟨0, 0⟩ := by
  have hmd := Scene.moveDrone_drone s f hidx
  have hidx2 : s.droneIdx < (s.moveDrone f).world.bodies.length := by
    rw [Scene.moveDrone_bodies_length]
    exact hidx
  have hstep := World.bodyAt_step ((s.moveDrone f).world) trig dt s.droneIdx hidx2
  have hbody : (s.moveDrone f).world.bodyAt s.droneIdx
      = s.drone.applyForceToCenter (s.drone.getWorldVector f) := hmd
  rw [hbody] at hstep
  have hdenpos : 0 < 1 + dt * s.drone.linearDamping := by
    have : 0 ≤ dt * s.drone.linearDamping := mul_nonneg hdt.le hdamp
    linarith
  have hc : 0 < dt * s.drone.invMass / (1 + dt * s.drone.linearDamping) :=
    div_pos (mul_pos hdt him) hdenpos
  have hint : Body.integrate trig ((s.moveDrone f).world.gravity) dt
      (s.drone.applyForceToCenter (s.drone.getWorldVector f))
      = Body.integrate trig ⟨0, 0⟩ dt
        (s.drone.applyForceToCenter (s.drone.getWorldVector f)) := by
    rw [Scene.moveDrone_world_gravity, hgrav]
  rw [hint] at hstep
  refine ⟨?_, ?_, ?_, hc, ?_, ?_⟩
  · rw [hmd]
    simp [Body.getWorldVector]
  · rw [hmd]
    simp
  · rw [hmd]
    simp
  · rw [hstep]
    simp only [Body.integrate, Body.applyForceToCenter_type, hdyn, if_pos]
    apply Vec2.eq_of_parts <;>
      simp [hforce, hrest, Body.getWorldVector] <;> ring
  · rw [hstep]

/-- Witness for C3 at the freshly constructed scene, local force `(3, 4)`
and `dt = 1`. -/
theorem moveDrone_world_frame_force_step_velocity_witness :
    (sceneInit none).droneIdx < (sceneInit none).world.bodies.length ∧
    (sceneInit none).drone.type = .dynamicBody ∧
    (sceneInit none).world.gravity = ⟨0, 0⟩ ∧
    (sceneInit none).drone.force = ⟨0, 0⟩ ∧
    (sceneInit none).drone.linVel = ⟨0, 0⟩ ∧
    (0 : ℚ) < 1 ∧
    0 ≤ (sceneInit none).drone.linearDamping ∧
    0 < (sceneInit none).drone.invMass ∧
    ((sceneInit none).moveDrone ⟨3, 4⟩).drone.force
      = (sceneInit none).drone.force + (sceneInit none).drone.rot.mulVec ⟨3, 4⟩ := by
  have hidx : (sceneInit none).droneIdx < (sceneInit none).world.bodies.length := by
    decide
  have hdyn : (sceneInit none).drone.type = .dynamicBody := rfl
  have hgrav : (sceneInit none).world.gravity = ⟨0, 0⟩ := rfl
  have hforce : (sceneInit none).drone.force = ⟨0, 0⟩ := rfl
  have hrest : (sceneInit none).drone.linVel = ⟨0, 0⟩ := rfl
  have hdt : (0 : ℚ) < 1 := by norm_num
  have hdamp : 0 ≤ (sceneInit none).drone.linearDamping := by
    show (0 : ℚ) ≤ 10
    norm_num
  have him : 0 < (sceneInit none).drone.invMass := by
    norm_num [sceneInit, Scene.drone, World.bodyAt, World.createBody, World.createFixture,
      World.modifyBody, World.createLight, Body.fromDef, Body.createFixture,
      Body.resetMassData, Shape.computeMass, wallFixtureDef, b2_pi, Config.default,
      BodyDef.default, Material.default]
  exact ⟨hidx, hdyn, hgrav, hforce, hrest, hdt, hdamp, him,
    (moveDrone_world_frame_force_step_velocity (sceneInit none) ⟨3, 4⟩
      (fun _ => (1, 0)) 1 hidx hdyn hgrav hforce hrest hdt hdamp him).1⟩

/-- C6: each held directional key makes `SceneUi::step()` issue the
corresponding fixed-magnitude axis-aligned `moveDrone` call and each held
rotation key the corresponding fixed-magnitude `rotateDrone` call; held
keys act independently, so the drone's accumulated force (resp. torque)
ends up as the sum of one contribution per held key. -/
theorem uiStep_issues_call_per_held_key (s : Scene) (keys : KeysHeld)
    (hidx : s.droneIdx < s.world.bodies.length) :
    (SceneUi.step keys s).drone.force
      = s.drone.force
        + (if keys.keyLeft then s.drone.getWorldVector ⟨-s.config.move_force, 0⟩ else 0)
        + (if keys.keyRight then s.drone.getWorldVector ⟨s.config.move_force, 0⟩ else 0)
        + (if keys.keyUp then s.drone.getWorldVector ⟨0, s.config.move_force⟩ else 0)
        + (if keys.keyDown then s.drone.getWorldVector ⟨0, -s.config.move_force⟩ else 0) ∧
    (SceneUi.step keys s).drone.torque
      = s.drone.torque
        + (if keys.keyQ then s.config.rotate_torque else 0)
        + (if keys.keyW then -s.config.rotate_torque else 0) := by
  rcases keys with ⟨a, b, c, d, e, g⟩
  cases a <;> cases b <;> cases c <;> cases d <;> cases e <;> cases g <;>
    constructor <;>
      simp [SceneUi.step, Scene.moveDrone_drone, Scene.rotateDrone_drone, hidx]

/-- Witness for C6 with every key held at the freshly constructed scene. -/
theorem uiStep_issues_call_per_held_key_witness :
    (sceneInit none).droneIdx < (sceneInit none).world.bodies.length ∧
    (SceneUi.step ⟨true, true, true, true, true, true⟩ (sceneInit none)).drone.torque
      = (sceneInit none).drone.torque
        + (sceneInit none).config.rotate_torque
        + -(sceneInit none).config.rotate_torque := by
  have hidx : (sceneInit none).droneIdx < (sceneInit none).world.bodies.length := by
    decide
  have h := (uiStep_issues_call_per_held_key (sceneInit none)
    ⟨true, true, true, true, true, true⟩ hidx).2
  simp only [if_pos] at h
  exact ⟨hidx, h⟩

/-- C10: the physics world is constructed with zero gravity and the fixed
extents rectangle `(-10, -10, 20, 20)`, so a body spawned at rest (via
`addBalloon` or `addBox`) stays at rest across a step: no gravitational
acceleration acts on it, its velocity remains zero and its position stays
at the spawn point. -/
theorem zero_gravity_world_body_at_rest_stays
    (cfg : Option Config) (x y r sx sy h : ℚ) (trig : ℚ → ℚ × ℚ) (_hh : 0 ≤ h) :
    (sceneInit cfg).world.gravity = ⟨0, 0⟩ ∧
    (sceneInit cfg).extents = ⟨-10, -10, 20, 20⟩ ∧
    ((((sceneInit cfg).addBalloon x y r).world.step trig h).bodyAt 2).linVel = ⟨0, 0⟩ ∧
    ((((sceneInit cfg).addBalloon x y r).world.step trig h).bodyAt 2).pos = ⟨x, y⟩ ∧
    ((((sceneInit cfg).addBox x y sx sy).world.step trig h).bodyAt 2).linVel = ⟨0, 0⟩ ∧
    ((((sceneInit cfg).addBox x y sx sy).world.step trig h).bodyAt 2).pos = ⟨x, y⟩ := by
  have hlen2 : (sceneInit cfg).world.bodies.length = 2 := rfl
  have hblen : ((sceneInit cfg).addBalloon x y r).world.bodies.length = 3 := by
    rw [addBalloon_bodies]
    simp [hlen2]
  have hxlen : ((sceneInit cfg).addBox x y sx sy).world.bodies.length = 3 := by
    rw [addBox_bodies]
    simp [hlen2]
  have hbat : ((sceneInit cfg).addBalloon x y r).world.bodyAt 2 = balloonBody x y r := by
    rw [World.bodyAt, addBalloon_bodies]
    have := getD_append_singleton (sceneInit cfg).world.bodies (balloonBody x y r) default
    rw [hlen2] at this
    exact this
  have hxat : ((sceneInit cfg).addBox x y sx sy).world.bodyAt 2 = boxBody x y sx sy := by
    rw [World.bodyAt, addBox_bodies]
    have := getD_append_singleton (sceneInit cfg).world.bodies (boxBody x y sx sy) default
    rw [hlen2] at this
    exact this
  have hgb : ((sceneInit cfg).addBalloon x y r).world.gravity = ⟨0, 0⟩ := rfl
  have hgx : ((sceneInit cfg).addBox x y sx sy).world.gravity = ⟨0, 0⟩ := rfl
  have hsb := World.bodyAt_step ((sceneInit cfg).addBalloon x y r).world trig h 2
    (by rw [hblen]; norm_num)
  have hsx := World.bodyAt_step ((sceneInit cfg).addBox x y sx sy).world trig h 2
    (by rw [hxlen]; norm_num)
  rw [hbat, hgb] at hsb
  rw [hxat, hgx] at hsx
  refine ⟨rfl, rfl, ?_, ?_, ?_, ?_⟩
  · rw [hsb]
    simp only [Body.integrate, balloonBody_type, if_pos]
    apply Vec2.eq_of_parts <;> simp
  · rw [hsb]
    simp only [Body.integrate, balloonBody_type, if_pos]
    apply Vec2.eq_of_parts <;> simp
  · rw [hsx]
    simp only [Body.integrate, boxBody_type, if_pos]
    apply Vec2.eq_of_parts <;> simp
  · rw [hsx]
    simp only [Body.integrate, boxBody_type, if_pos]
    apply Vec2.eq_of_parts <;> simp

/-- Witness for C10: the spec's concrete scenario, a box spawned at
`(0, 5)` with half-extents `(1, 1)`, stepped with `h = 1`. -/
theorem zero_gravity_world_body_at_rest_stays_witness :
    (0 : ℚ) ≤ 1 ∧
    (sceneInit none).world.gravity = ⟨0, 0⟩ ∧
    ((((sceneInit none).addBox 0 5 1 1).world.step (fun _ => (1, 0)) 1).bodyAt 2).pos
      = ⟨0, 5⟩ := by
  have hh : (0 : ℚ) ≤ 1 := by norm_num
  have h := zero_gravity_world_body_at_rest_stays none 0 5 1 1 1 1 (fun _ => (1, 0)) hh
  exact ⟨hh, h.1, h.2.2.2.2.2⟩

end DroneScene
